import Mathlib

/-!
Verification development for the tknote widget-animation engine.

The embedded code is src/tknote/animation/widget_animation.py
(class WidgetAnimation, the AnimationFrame namedtuple),
src/tknote/animation/animation_manager.py (class AnimationManager)
and src/tknote/utils.py (clip_value).

Modelling conventions:

* Python ints are ℤ.
* Python floats are modelled by exact rational arithmetic.  Because the
  built-in rational type of the library normalises with an operation the
  kernel does not reduce, we use the explicit fraction type Frac below
  (numerator/denominator, no normalisation); every operation the source
  performs on floats (add, sub, mul, true division, int() truncation,
  abs, comparisons) is defined on Frac.  All concrete inputs used in the
  theorems below make every float operation of the program exact (all
  intermediate values are dyadic or small-denominator rationals that
  IEEE doubles represent exactly), so on those inputs the Frac model
  agrees bit-for-bit with the Python float computation.
* Fallible Python code returns Except PyError; the generator protocol
  (raising StopIteration versus returning a frame) is a returned
  Option: none is the Completed signal.
* The tkinter widget handles stored in WidgetAnimation and
  AnimationFrame are opaque to every computation embedded here (they are
  only forwarded to widget.place, which the scheduler model treats
  abstractly), so they are omitted from the structures.
-/

/-- Exact fraction used to model Python float values.  The denominator is
positive for every value the embedded program constructs (this is kept as
an explicit hypothesis where a proof needs it). -/
structure Frac where
  num : ℤ
  den : ℤ
deriving DecidableEq, Repr

/-- Embed an integer, as Python int-to-float conversion. -/
def Frac.ofInt (n : ℤ) : Frac := ⟨n, 1⟩

/-- Python float addition. -/
def Frac.add (a b : Frac) : Frac := ⟨a.num * b.den + b.num * a.den, a.den * b.den⟩

/-- Python float subtraction. -/
def Frac.sub (a b : Frac) : Frac := ⟨a.num * b.den - b.num * a.den, a.den * b.den⟩

/-- Python float multiplication. -/
def Frac.mul (a b : Frac) : Frac := ⟨a.num * b.num, a.den * b.den⟩

/-- Python float true division (caller guards the zero divisor, as the
program must: dividing by zero raises in Python).  The sign is moved to
the numerator so the denominator stays positive. -/
def Frac.div (a b : Frac) : Frac :=
  let n := a.num * b.den
  let d := a.den * b.num
  if d < 0 then ⟨-n, -d⟩ else ⟨n, d⟩

/-- Python int(x) on a float: truncation toward zero. -/
def Frac.trunc (a : Frac) : ℤ :=
  if a.num < 0 then -(((-a.num).toNat / a.den.toNat : ℕ) : ℤ)
  else ((a.num.toNat / a.den.toNat : ℕ) : ℤ)

/-- Python abs() on a float. -/
def Frac.abs (a : Frac) : Frac := ⟨|a.num|, |a.den|⟩

/-- Strict order on fractions (valid for positive denominators, which
every value of the embedded program has). -/
def Frac.Lt (a b : Frac) : Prop := a.num * b.den < b.num * a.den

instance (a b : Frac) : Decidable (Frac.Lt a b) :=
  inferInstanceAs (Decidable (_ < _))

/-- Non-strict order on fractions. -/
def Frac.Le (a b : Frac) : Prop := a.num * b.den ≤ b.num * a.den

instance (a b : Frac) : Decidable (Frac.Le a b) :=
  inferInstanceAs (Decidable (_ ≤ _))

/-- Semantic equality of fractions (cross multiplication). -/
def Frac.Eqv (a b : Frac) : Prop := a.num * b.den = b.num * a.den

instance (a b : Frac) : Decidable (Frac.Eqv a b) :=
  inferInstanceAs (Decidable (_ = _))

/-- Python exceptions the embedded code can raise. -/
inductive PyError where
  | zeroDivisionError : PyError
  | valueError : PyError
deriving DecidableEq, Repr

/-- clip_value from src/tknote/utils.py, at the int instantiation used by
WidgetAnimation.send (the isinstance type checks of the source are
discharged by the ℤ typing; the min/max order check is kept). -/
def clip_value (val min_val max_val : ℤ) : Except PyError ℤ :=
  if min_val > max_val then .error .valueError
  else if val ≤ min_val then .ok min_val
  else if val ≥ max_val then .ok max_val
  else .ok val

/-- AnimationFrame namedtuple of widget_animation.py (widget and
parent_widget handles omitted, see the header note). -/
structure AnimationFrame where
  x : ℤ
  y : ℤ
  final_x : ℤ
  final_y : ℤ
  target_fps : ℤ
  duration : ℤ
  elapsed : Frac
  frame_number : ℤ
  final_frame : Bool
deriving DecidableEq, Repr

/-- The state of class WidgetAnimation: constructor arguments plus the
internal variables set in the last lines of WidgetAnimation.__init__. -/
structure WidgetAnimation where
  begin_x : ℤ
  begin_y : ℤ
  final_x : ℤ
  final_y : ℤ
  target_fps : ℤ
  duration : ℤ
  x : ℤ
  y : ℤ
  frame_number : ℤ
  elapsed : Frac
  x_pixel_overflow : Frac
  y_pixel_overflow : Frac
deriving DecidableEq, Repr

/-- WidgetAnimation.__init__: stores the parameters unchanged and zeroes
the internal progress variables.  The source performs no validation of
any parameter, so this constructor is total. -/
def WidgetAnimation.init (begin_x begin_y final_x final_y target_fps duration : ℤ) :
    WidgetAnimation :=
  { begin_x := begin_x
    begin_y := begin_y
    final_x := final_x
    final_y := final_y
    target_fps := target_fps
    duration := duration
    x := begin_x
    y := begin_y
    frame_number := 0
    elapsed := Frac.ofInt 0
    x_pixel_overflow := Frac.ofInt 0
    y_pixel_overflow := Frac.ofInt 0 }

/-- Property WidgetAnimation.completed. -/
def WidgetAnimation.completed (a : WidgetAnimation) : Bool :=
  a.x == a.final_x && a.y == a.final_y

/-- Property WidgetAnimation._total_frames: duration / 1000 * target_fps. -/
def WidgetAnimation.total_frames (a : WidgetAnimation) : Frac :=
  ((Frac.ofInt a.duration).div (Frac.ofInt 1000)).mul (Frac.ofInt a.target_fps)

/-- Property WidgetAnimation._frame_time_in_msec: 1000 / target_fps. -/
def WidgetAnimation.frame_time_in_msec (a : WidgetAnimation) : Frac :=
  (Frac.ofInt 1000).div (Frac.ofInt a.target_fps)

/-- Property WidgetAnimation._x_dist. -/
def WidgetAnimation.x_dist (a : WidgetAnimation) : ℤ := a.final_x - a.begin_x

/-- Property WidgetAnimation._y_dist. -/
def WidgetAnimation.y_dist (a : WidgetAnimation) : ℤ := a.final_y - a.begin_y

/-- Property WidgetAnimation._x_float_delta: _x_dist / _total_frames. -/
def WidgetAnimation.x_float_delta (a : WidgetAnimation) : Frac :=
  (Frac.ofInt a.x_dist).div a.total_frames

/-- Property WidgetAnimation._y_float_delta: _y_dist / _total_frames. -/
def WidgetAnimation.y_float_delta (a : WidgetAnimation) : Frac :=
  (Frac.ofInt a.y_dist).div a.total_frames

/-- Property WidgetAnimation._x_frame_delta.  It mutates
_x_pixel_overflow, so the model returns the produced pixel count
together with the new overflow value.  Note the carry condition of the
source: the overflow is carried only when it is greater than or equal
to 1 (positive side only). -/
def WidgetAnimation.x_frame_delta (a : WidgetAnimation) : ℤ × Frac :=
  let pixels := a.x_float_delta.trunc
  let ov := a.x_pixel_overflow.add (a.x_float_delta.sub (Frac.ofInt pixels))
  if Frac.Le (Frac.ofInt 1) ov then
    let p := ov.trunc
    (pixels + p, ov.sub (Frac.ofInt p))
  else (pixels, ov)

/-- Property WidgetAnimation._y_frame_delta.  Unlike the x axis, the
carry condition of the source takes the absolute value of the overflow. -/
def WidgetAnimation.y_frame_delta (a : WidgetAnimation) : ℤ × Frac :=
  let pixels := a.y_float_delta.trunc
  let ov := a.y_pixel_overflow.add (a.y_float_delta.sub (Frac.ofInt pixels))
  if Frac.Le (Frac.ofInt 1) ov.abs then
    let p := ov.trunc
    (pixels + p, ov.sub (Frac.ofInt p))
  else (pixels, ov)

/-- The mutated state at the end of a successful WidgetAnimation.send
call: new clipped coordinates, new overflow accumulators, frame counter
and elapsed time advanced. -/
def WidgetAnimation.advState (a : WidgetAnimation) (newX newY : ℤ) : WidgetAnimation :=
  { a with
    x := newX
    y := newY
    x_pixel_overflow := a.x_frame_delta.2
    y_pixel_overflow := a.y_frame_delta.2
    frame_number := a.frame_number + 1
    elapsed := a.elapsed.add a.frame_time_in_msec }

/-- The AnimationFrame snapshot built at the end of WidgetAnimation.send
from the already-updated state (final_frame re-checks completion). -/
def WidgetAnimation.frameOf (a : WidgetAnimation) : AnimationFrame :=
  { x := a.x
    y := a.y
    final_x := a.final_x
    final_y := a.final_y
    target_fps := a.target_fps
    duration := a.duration
    elapsed := a.elapsed
    frame_number := a.frame_number
    final_frame := a.completed }

/-- WidgetAnimation.send.  A returned none is the StopIteration signal
(the Completed signal of the spec); in both StopIteration branches the
source mutates nothing, so the state is returned unchanged.  The
ZeroDivisionError guards sit exactly where the source divides:
_x_float_delta divides by _total_frames (zero as a float exactly when
its numerator duration * target_fps is zero) and the elapsed update
divides 1000 by target_fps. -/
def WidgetAnimation.send (a : WidgetAnimation) :
    Except PyError (Option AnimationFrame × WidgetAnimation) :=
  if a.completed then .ok (none, a)
  else if Frac.Lt (Frac.ofInt (a.duration + 1000)) a.elapsed then .ok (none, a)
  else if a.total_frames.num = 0 then .error .zeroDivisionError
  else
    match clip_value (a.x + a.x_frame_delta.1)
        (min a.begin_x a.final_x) (max a.begin_x a.final_x) with
    | .error e => .error e
    | .ok newX =>
      match clip_value (a.y + a.y_frame_delta.1)
          (min a.begin_y a.final_y) (max a.begin_y a.final_y) with
      | .error e => .error e
      | .ok newY =>
        if a.target_fps = 0 then .error .zeroDivisionError
        else
          .ok (some (a.advState newX newY).frameOf, a.advState newX newY)

/-- Outcome of driving an animation generator to its end. -/
inductive RunOutcome where
  | completedSignal : RunOutcome
  | outOfFuel : RunOutcome
  | errored : RunOutcome
deriving DecidableEq, Repr

/-- Repeatedly call send, collecting the produced frames in order, until
the Completed signal (StopIteration), an error, or fuel runs out. -/
def drive : ℕ → WidgetAnimation → List AnimationFrame × RunOutcome
  | 0, _ => ([], .outOfFuel)
  | n + 1, a =>
    match a.send with
    | .ok (none, _) => ([], .completedSignal)
    | .ok (some f, a1) =>
      let r := drive n a1
      (f :: r.1, r.2)
    | .error _ => ([], .errored)

/-- Call send n times, keeping the state (used to inspect internal
state at a given frame; an error or signal leaves the state as is). -/
def advanceTimes : ℕ → WidgetAnimation → WidgetAnimation
  | 0, a => a
  | n + 1, a =>
    match a.send with
    | .ok (_, a1) => advanceTimes n a1
    | .error _ => a

/-- Decidable equality for Except results (used only to evaluate the
model at concrete inputs). -/
instance {e a : Type} [DecidableEq e] [DecidableEq a] : DecidableEq (Except e a) := fun x y =>
  match x, y with
  | .ok u, .ok v =>
    if h : u = v then .isTrue (congrArg Except.ok h)
    else .isFalse (fun hh => h (Except.ok.inj hh))
  | .ok _, .error _ => .isFalse (fun hh => Except.noConfusion hh)
  | .error _, .ok _ => .isFalse (fun hh => Except.noConfusion hh)
  | .error u, .error v =>
    if h : u = v then .isTrue (congrArg Except.error h)
    else .isFalse (fun hh => h (Except.error.inj hh))

/-!
Model of class AnimationManager (animation_manager.py).

The manager treats each WidgetAnimation purely through the generator
protocol (next returns a frame and the mutated animation, or raises
StopIteration) and treats each frame purely through widget.place (which
either succeeds or raises tkinter.TclError, the PlacementError of the
spec).  The model is therefore parametric: animations are a type α with
a step function, frames a type β with a place predicate; true means
place succeeded, false means it raised TclError.  Callbacks are
identified by naturals; the Python set of callbacks is modelled as a
duplicate-free list (add_callback inserts only when absent, which is
exactly the observable behaviour of set.add on identical references).
The tkinter after() self-rescheduling is recorded by the rescheduled
flag of the tick result.
-/

/-- State of class AnimationManager between ticks. -/
structure AnimationManager (a b : Type) where
  scheduled_animations : List a
  running_animations : List a
  animation_in_progress : Bool
  callbacks : List ℕ
deriving DecidableEq, Repr

/-- AnimationManager.add_callback: set insertion. -/
def AnimationManager.add_callback {a b : Type} (s : AnimationManager a b) (c : ℕ) :
    AnimationManager a b :=
  if c ∈ s.callbacks then s else { s with callbacks := s.callbacks ++ [c] }

/-- AnimationManager.schedule_animations: extend the pending queue. -/
def AnimationManager.schedule_animations {a b : Type} (s : AnimationManager a b)
    (anims : List a) : AnimationManager a b :=
  { s with scheduled_animations := s.scheduled_animations ++ anims }

/-- The first while loop of the busy branch of AnimationManager._run:
pop animations from the left of the scheduled queue; for each one, next()
either yields a frame (appended to the frames deque, the animation
appended to running_animations) or raises StopIteration (the animation is
dropped).  frames and running are the two accumulators. -/
def runCollect {a b : Type} (step : a → Option (b × a)) :
    List a → List b → List a → List b × List a
  | [], frames, running => (frames, running)
  | an :: rest, frames, running =>
    match step an with
    | some fa => runCollect step rest (frames ++ [fa.1]) (running ++ [fa.2])
    | none => runCollect step rest frames running

/-- One appendleft(running.pop()) at a time, processing the running deque
from its right end (its reversed order). -/
def transferBackAux {a : Type} (scheduled : List a) : List a → List a
  | [] => scheduled
  | an :: rest => transferBackAux (an :: scheduled) rest

/-- The second while loop of the busy branch: move every entry of
running_animations back to scheduled_animations by popping from the right
and appending on the left. -/
def transferBack {a : Type} (scheduled running : List a) : List a :=
  transferBackAux scheduled running.reverse

/-- The third while loop of the busy branch: pop each frame and call
widget.place on it, skipping (continue) the frames on which place raises
TclError.  Returns the frames successfully applied, in application
order. -/
def applyFrames {a : Type} (place : a → Bool) : List a → List a
  | [] => []
  | f :: rest => if place f then f :: applyFrames place rest else applyFrames place rest

/-- The frame-collection phase of a busy tick, started on the current
scheduled and running queues. -/
def collectPhase {a b : Type} (step : a → Option (b × a)) (s : AnimationManager a b) :
    List b × List a :=
  runCollect step s.scheduled_animations [] s.running_animations

/-- Observable result of one AnimationManager._run tick: the state left
behind, the drain callbacks invoked (in invocation order), the frames
successfully applied to the host surface (in application order), and
whether the next tick was scheduled with after(). -/
structure TickResult (a b : Type) where
  state : AnimationManager a b
  invoked : List ℕ
  applied : List b
  rescheduled : Bool
deriving Repr

/-- AnimationManager._run.  The idle branch fires the drain callbacks
exactly when the busy flag was still set; the busy branch collects one
frame per scheduled animation, requeues the unfinished ones, applies the
collected frames, and always reschedules itself. -/
def AnimationManager.run_tick {a b : Type} (step : a → Option (b × a)) (place : b → Bool)
    (s : AnimationManager a b) : TickResult a b :=
  if s.scheduled_animations.isEmpty then
    if s.animation_in_progress then
      { state := { s with animation_in_progress := false }
        invoked := s.callbacks
        applied := []
        rescheduled := true }
    else
      { state := s, invoked := [], applied := [], rescheduled := true }
  else
    let collected := collectPhase step s
    { state :=
        { s with
          scheduled_animations := transferBack [] collected.2
          running_animations := []
          animation_in_progress := true }
      invoked := []
      applied := applyFrames place collected.1
      rescheduled := true }

/-! Supporting lemmas. -/

lemma isEmpty_false_of_ne_nil {g : Type} {l : List g} (h : l ≠ []) : l.isEmpty = false := by
  cases l with
  | nil => exact absurd rfl h
  | cons hd tl => rfl

lemma clip_value_isOk (val min_val max_val : ℤ) (h : min_val ≤ max_val) :
    ∃ w, clip_value val min_val max_val = .ok w ∧ min_val ≤ w ∧ w ≤ max_val := by
  unfold clip_value
  rw [if_neg (not_lt.mpr h)]
  by_cases h1 : val ≤ min_val
  · exact ⟨min_val, by rw [if_pos h1], le_refl _, h⟩
  · rw [if_neg h1]
    by_cases h2 : val ≥ max_val
    · exact ⟨max_val, by rw [if_pos h2], h, le_refl _⟩
    · exact ⟨val, by rw [if_neg h2], by omega, by omega⟩

lemma total_frames_num (a : WidgetAnimation) :
    a.total_frames.num = a.duration * 1 * a.target_fps := rfl

lemma frame_time_in_msec_eq (a : WidgetAnimation) (hf : 0 < a.target_fps) :
    a.frame_time_in_msec = ⟨1000, a.target_fps⟩ := by
  unfold WidgetAnimation.frame_time_in_msec Frac.div Frac.ofInt
  simp only []
  rw [if_neg (by simp; omega)]
  simp

lemma Frac.le_add_nonneg (a b : Frac) (ha : 0 < a.den) (_hb : 0 < b.den)
    (hn : 0 ≤ b.num) : Frac.Le a (a.add b) := by
  unfold Frac.Le Frac.add
  simp only []
  nlinarith [mul_nonneg hn (mul_nonneg ha.le ha.le)]

lemma send_success_form (a : WidgetAnimation) (hc : a.completed = false)
    (ht : ¬ Frac.Lt (Frac.ofInt (a.duration + 1000)) a.elapsed)
    (htf : a.total_frames.num ≠ 0) (hfz : a.target_fps ≠ 0) :
    ∃ newX newY,
      min a.begin_x a.final_x ≤ newX ∧ newX ≤ max a.begin_x a.final_x ∧
      min a.begin_y a.final_y ≤ newY ∧ newY ≤ max a.begin_y a.final_y ∧
      a.send = .ok (some (a.advState newX newY).frameOf, a.advState newX newY) := by
  obtain ⟨w1, e1, hw1a, hw1b⟩ :=
    clip_value_isOk (a.x + a.x_frame_delta.1) (min a.begin_x a.final_x)
      (max a.begin_x a.final_x) (min_le_max)
  obtain ⟨w2, e2, hw2a, hw2b⟩ :=
    clip_value_isOk (a.y + a.y_frame_delta.1) (min a.begin_y a.final_y)
      (max a.begin_y a.final_y) (min_le_max)
  refine ⟨w1, w2, hw1a, hw1b, hw2a, hw2b, ?_⟩
  unfold WidgetAnimation.send
  rw [hc]
  simp only [Bool.false_eq_true, if_false]
  rw [if_neg ht, if_neg htf, e1, e2]
  simp [hfz]

lemma runCollect_eq {a b : Type} (step : a → Option (b × a)) (l : List a)
    (fs : List b) (rs : List a) :
    runCollect step l fs rs =
      (fs ++ l.filterMap (fun an => (step an).map Prod.fst),
        rs ++ l.filterMap (fun an => (step an).map Prod.snd)) := by
  induction l generalizing fs rs with
  | nil => simp [runCollect]
  | cons hd tl ih =>
    cases h : step hd with
    | none => simp [runCollect, h, ih]
    | some fa => simp [runCollect, h, ih]

lemma transferBackAux_eq {a : Type} (l s : List a) :
    transferBackAux s l = l.reverse ++ s := by
  induction l generalizing s with
  | nil => simp [transferBackAux]
  | cons hd tl ih => simp [transferBackAux, ih]

lemma transferBack_eq {a : Type} (s r : List a) : transferBack s r = r ++ s := by
  simp [transferBack, transferBackAux_eq]

lemma applyFrames_eq_filter {b : Type} (place : b → Bool) (l : List b) :
    applyFrames place l = l.filter place := by
  induction l with
  | nil => rfl
  | cons hd tl ih =>
    by_cases h : place hd <;> simp [applyFrames, h, ih, List.filter_cons]

lemma applyFrames_append {b : Type} (place : b → Bool) (l1 l2 : List b) :
    applyFrames place (l1 ++ l2) = applyFrames place l1 ++ applyFrames place l2 := by
  simp [applyFrames_eq_filter, List.filter_append]

/-! Claim theorems. -/

set_option maxRecDepth 40000 in
/-- C1: the claim states that for every AnimationState with integer
coordinates, targetFps > 0 and durationMs > 0, driving advance() to the
Completed signal ends with a last frame satisfying x = finalX,
y = finalY and isFinalFrame = true.  The code violates this: for
begin = (5, 0), final = (0, 0), targetFps = 10, durationMs = 1000 the x
per-frame float delta is -0.5 (exact in floating point), the truncated
pixel delta is 0 every frame, and the x overflow accumulator only ever
carries when it is at least +1, so x never moves; the run ends through
the duration + 1000 timeout after 21 frames, every produced frame has
x = 5 and the last frame is not a final frame. -/
theorem C1_convergence_fails_on_negative_x :
    (drive 40 (WidgetAnimation.init 5 0 0 0 10 1000)).2 = RunOutcome.completedSignal ∧
    (drive 40 (WidgetAnimation.init 5 0 0 0 10 1000)).1.length = 21 ∧
    ((drive 40 (WidgetAnimation.init 5 0 0 0 10 1000)).1.map AnimationFrame.x) =
      List.replicate 21 5 ∧
    ((drive 40 (WidgetAnimation.init 5 0 0 0 10 1000)).1.all
      (fun f => !f.final_frame)) = true := by
  decide

set_option maxRecDepth 40000 in
/-- C2: the claim states that the sub-pixel carry is symmetric on both
axes, in particular that the x axis carries accumulated overflow of -1
or below exactly as the y axis does.  The code refutes this: with the
symmetric animation begin = (1, 1), final = (0, 0), targetFps = 2,
durationMs = 1000 both axes have float delta -0.5; after one advance
both overflow accumulators are -0.5; on the second advance the y axis
carries (pixel delta -1, overflow reset to 0, y reaches 0) while the x
axis does not (pixel delta 0, overflow left at -1, x still 1), because
the x carry condition tests overflow >= 1 instead of
abs(overflow) >= 1. -/
theorem C2_x_axis_negative_carry_missing :
    (WidgetAnimation.x_frame_delta (advanceTimes 1 (WidgetAnimation.init 1 1 0 0 2 1000))).1
      = 0 ∧
    (WidgetAnimation.y_frame_delta (advanceTimes 1 (WidgetAnimation.init 1 1 0 0 2 1000))).1
      = -1 ∧
    (advanceTimes 2 (WidgetAnimation.init 1 1 0 0 2 1000)).x = 1 ∧
    (advanceTimes 2 (WidgetAnimation.init 1 1 0 0 2 1000)).y = 0 ∧
    Frac.Eqv (advanceTimes 2 (WidgetAnimation.init 1 1 0 0 2 1000)).x_pixel_overflow
      (Frac.ofInt (-1)) ∧
    Frac.Eqv (advanceTimes 2 (WidgetAnimation.init 1 1 0 0 2 1000)).y_pixel_overflow
      (Frac.ofInt 0) := by
  decide

/-- C3 counterexample: the claim states that constructing with
targetFps <= 0 or durationMs <= 0 fails with InvalidParameterError
before any state is created and that no later division by zero is
possible.  The constructor of the code performs no validation at all:
with targetFps = 0 it succeeds and returns a fully populated state, and
the first advance() call then raises ZeroDivisionError
(_x_float_delta divides by a zero _total_frames). -/
theorem C3_construction_does_not_validate :
    (WidgetAnimation.init 5 0 0 0 0 1000).target_fps = 0 ∧
    (WidgetAnimation.init 5 0 0 0 0 1000).x = 5 ∧
    (WidgetAnimation.init 5 0 0 0 0 1000).y = 0 ∧
    (WidgetAnimation.init 5 0 0 0 0 1000).send = .error PyError.zeroDivisionError := by
  decide

/-- C3 amended: construction never validates and never fails; the
parameters are stored unchanged (never clamped); and on a state that is
not already completed and not past the timeout guard, the first
advance() with targetFps = 0 or durationMs = 0 raises
ZeroDivisionError. -/
theorem C3_amended_unvalidated_construction
    (x0 y0 x1 y1 fps dur : ℤ) (hz : fps = 0 ∨ dur = 0)
    (hc : (WidgetAnimation.init x0 y0 x1 y1 fps dur).completed = false)
    (hd : -1000 ≤ dur) :
    (WidgetAnimation.init x0 y0 x1 y1 fps dur).target_fps = fps ∧
    (WidgetAnimation.init x0 y0 x1 y1 fps dur).duration = dur ∧
    (WidgetAnimation.init x0 y0 x1 y1 fps dur).x = x0 ∧
    (WidgetAnimation.init x0 y0 x1 y1 fps dur).y = y0 ∧
    (WidgetAnimation.init x0 y0 x1 y1 fps dur).send = .error PyError.zeroDivisionError := by
  refine ⟨rfl, rfl, rfl, rfl, ?_⟩
  unfold WidgetAnimation.send
  rw [hc]
  simp only [Bool.false_eq_true, if_false]
  rw [if_neg (by
    show ¬ Frac.Lt (Frac.ofInt (dur + 1000)) (Frac.ofInt 0)
    unfold Frac.Lt Frac.ofInt
    simp
    omega)]
  rw [if_pos (by
    show (WidgetAnimation.init x0 y0 x1 y1 fps dur).total_frames.num = 0
    rw [total_frames_num]
    rcases hz with h | h <;> simp [WidgetAnimation.init, h])]

/-- C3 witness for the amended theorem, at begin = (5, 0),
final = (0, 0), targetFps = 0, durationMs = 1000. -/
theorem C3_amended_witness :
    ((0 : ℤ) = 0 ∨ (1000 : ℤ) = 0) ∧
    (WidgetAnimation.init 5 0 0 0 0 1000).completed = false ∧
    (-1000 : ℤ) ≤ 1000 ∧
    (WidgetAnimation.init 5 0 0 0 0 1000).duration = 1000 ∧
    (WidgetAnimation.init 5 0 0 0 0 1000).send = .error PyError.zeroDivisionError := by
  have h := C3_amended_unvalidated_construction 5 0 0 0 0 1000 (Or.inl rfl) (by decide)
    (by decide)
  exact ⟨Or.inl rfl, by decide, by decide, h.2.1, h.2.2.2.2⟩

set_option maxRecDepth 200000 in
/-- C9: the claim states that any valid animation that runs to
completion produces floor(durationMs / 1000 * targetFps) non-final
frames, give or take one, and cites the concrete run
begin = (0, 600), final = (0, 0), fps = 20, duration = 5000.  The cited
run does behave as claimed (second half of the conjunction: 100 frames,
final frame with x = 0, y = 0, frame number 100, elapsed exactly 5000).
The general count law is violated: for begin = (30, 0), final = (0, 0),
fps = 10, duration = 2000 the nominal frame count is 20, but because the
x axis never carries its negative overflow (float delta -1.5 moves only
-1 pixel per frame) the animation completes only at frame 30, producing
29 non-final frames, outside 20 plus or minus 1. -/
theorem C9_frame_count_law_fails :
    (drive 60 (WidgetAnimation.init 30 0 0 0 10 2000)).2 = RunOutcome.completedSignal ∧
    (drive 60 (WidgetAnimation.init 30 0 0 0 10 2000)).1.length = 30 ∧
    ((drive 60 (WidgetAnimation.init 30 0 0 0 10 2000)).1.filter
      (fun f => !f.final_frame)).length = 29 ∧
    ((drive 60 (WidgetAnimation.init 30 0 0 0 10 2000)).1.getLast?).map
      (fun f => (f.x, f.y, f.frame_number, f.final_frame)) = some (0, 0, 30, true) ∧
    (drive 110 (WidgetAnimation.init 0 600 0 0 20 5000)).2 = RunOutcome.completedSignal ∧
    (drive 110 (WidgetAnimation.init 0 600 0 0 20 5000)).1.length = 100 ∧
    ((drive 110 (WidgetAnimation.init 0 600 0 0 20 5000)).1.getLast?).map
      (fun f => (f.x, f.y, f.frame_number, f.final_frame)) = some (0, 0, 100, true) ∧
    ((drive 110 (WidgetAnimation.init 0 600 0 0 20 5000)).1.getLast?).map
      (fun f => decide (Frac.Eqv f.elapsed (Frac.ofInt 5000))) = some true := by
  decide

/-- C4: on a state with targetFps > 0 and durationMs > 0, every
advance() call either produces exactly one frame or signals Completed
(StopIteration), never both; the Completed signal happens exactly when
the state is already completed or elapsed exceeds duration + 1000 at
call time; and no other failure (in particular no exception from
clip_value and no ZeroDivisionError) is possible. -/
theorem C4_advance_contract (a : WidgetAnimation)
    (hf : 0 < a.target_fps) (hd : 0 < a.duration) :
    (a.send = .ok (none, a) ↔
      (a.completed = true ∨ Frac.Lt (Frac.ofInt (a.duration + 1000)) a.elapsed)) ∧
    ((a.completed = false ∧ ¬ Frac.Lt (Frac.ofInt (a.duration + 1000)) a.elapsed) →
      ∃ f a1, a.send = .ok (some f, a1)) ∧
    (∀ e, a.send ≠ .error e) := by
  have htf : a.total_frames.num ≠ 0 := by
    rw [total_frames_num]
    have hpos : 0 < a.duration * 1 * a.target_fps := by nlinarith
    exact hpos.ne'
  by_cases hc : a.completed
  · have hs : a.send = .ok (none, a) := by simp [WidgetAnimation.send, hc]
    refine ⟨⟨fun _ => Or.inl hc, fun _ => hs⟩, ?_, ?_⟩
    · rintro ⟨h1, -⟩
      rw [hc] at h1
      cases h1
    · intro e he
      rw [hs] at he
      exact Except.noConfusion he
  · have hc2 : a.completed = false := by simpa using hc
    by_cases ht : Frac.Lt (Frac.ofInt (a.duration + 1000)) a.elapsed
    · have hs : a.send = .ok (none, a) := by
        unfold WidgetAnimation.send
        rw [hc2]
        simp only [Bool.false_eq_true, if_false]
        rw [if_pos ht]
      refine ⟨⟨fun _ => Or.inr ht, fun _ => hs⟩, ?_, ?_⟩
      · rintro ⟨-, h2⟩
        exact absurd ht h2
      · intro e he
        rw [hs] at he
        exact Except.noConfusion he
    · obtain ⟨w1, w2, -, -, -, -, hs⟩ := send_success_form a hc2 ht htf hf.ne'
      refine ⟨⟨fun h1 => ?_, fun h1 => ?_⟩, fun _ => ⟨_, _, hs⟩, ?_⟩
      · rw [hs] at h1
        simp at h1
      · rcases h1 with h1 | h1
        · rw [hc2] at h1
          cases h1
        · exact absurd h1 ht
      · intro e he
        rw [hs] at he
        exact Except.noConfusion he

/-- C4 witness, at begin = (5, 10), final = (0, 0), targetFps = 10,
durationMs = 1000 (not completed, within the timeout window: the call
produces a frame, hence is not the Completed signal and no error). -/
theorem C4_advance_contract_witness :
    (0 : ℤ) < 10 ∧ (0 : ℤ) < 1000 ∧
    ((WidgetAnimation.init 5 10 0 0 10 1000).send =
        .ok (none, WidgetAnimation.init 5 10 0 0 10 1000) ↔
      ((WidgetAnimation.init 5 10 0 0 10 1000).completed = true ∨
        Frac.Lt (Frac.ofInt ((WidgetAnimation.init 5 10 0 0 10 1000).duration + 1000))
          (WidgetAnimation.init 5 10 0 0 10 1000).elapsed)) ∧
    (WidgetAnimation.init 5 10 0 0 10 1000).send ≠ .error PyError.zeroDivisionError ∧
    (WidgetAnimation.init 5 10 0 0 10 1000).send ≠ .error PyError.valueError := by
  have h := C4_advance_contract (WidgetAnimation.init 5 10 0 0 10 1000)
    (by decide) (by decide)
  exact ⟨by decide, by decide, h.1, h.2.2 PyError.zeroDivisionError,
    h.2.2 PyError.valueError⟩

/-- C5: any advance() call on a state whose coordinates are within the
begin/final bounds (with positive targetFps, and a well-formed elapsed
fraction, which every reachable state has) leaves the coordinates within
those bounds, keeps elapsed non-decreasing, and any produced frame
carries coordinates within the same bounds. -/
theorem C5_bounds_and_monotone_elapsed (a : WidgetAnimation)
    (fr : Option AnimationFrame) (a1 : WidgetAnimation)
    (hf : 0 < a.target_fps) (hden : 0 < a.elapsed.den)
    (hx1 : min a.begin_x a.final_x ≤ a.x) (hx2 : a.x ≤ max a.begin_x a.final_x)
    (hy1 : min a.begin_y a.final_y ≤ a.y) (hy2 : a.y ≤ max a.begin_y a.final_y)
    (h : a.send = .ok (fr, a1)) :
    (min a.begin_x a.final_x ≤ a1.x ∧ a1.x ≤ max a.begin_x a.final_x) ∧
    (min a.begin_y a.final_y ≤ a1.y ∧ a1.y ≤ max a.begin_y a.final_y) ∧
    Frac.Le a.elapsed a1.elapsed ∧ 0 < a1.elapsed.den ∧
    (∀ f, fr = some f →
      (min a.begin_x a.final_x ≤ f.x ∧ f.x ≤ max a.begin_x a.final_x) ∧
      (min a.begin_y a.final_y ≤ f.y ∧ f.y ≤ max a.begin_y a.final_y)) := by
  have hle : Frac.Le a.elapsed a.elapsed := by
    unfold Frac.Le
    exact le_refl _
  by_cases hc : a.completed
  · have hs : a.send = .ok (none, a) := by simp [WidgetAnimation.send, hc]
    rw [hs] at h
    simp only [Except.ok.injEq, Prod.mk.injEq] at h
    obtain ⟨h1, h2⟩ := h
    subst h2
    refine ⟨⟨hx1, hx2⟩, ⟨hy1, hy2⟩, hle, hden, ?_⟩
    intro f hff
    rw [← h1] at hff
    exact Option.noConfusion hff
  · have hc2 : a.completed = false := by simpa using hc
    by_cases ht : Frac.Lt (Frac.ofInt (a.duration + 1000)) a.elapsed
    · have hs : a.send = .ok (none, a) := by
        unfold WidgetAnimation.send
        rw [hc2]
        simp only [Bool.false_eq_true, if_false]
        rw [if_pos ht]
      rw [hs] at h
      simp only [Except.ok.injEq, Prod.mk.injEq] at h
      obtain ⟨h1, h2⟩ := h
      subst h2
      refine ⟨⟨hx1, hx2⟩, ⟨hy1, hy2⟩, hle, hden, ?_⟩
      intro f hff
      rw [← h1] at hff
      exact Option.noConfusion hff
    · by_cases htf : a.total_frames.num = 0
      · have hs : a.send = .error .zeroDivisionError := by
          unfold WidgetAnimation.send
          rw [hc2]
          simp only [Bool.false_eq_true, if_false]
          rw [if_neg ht, if_pos htf]
        rw [hs] at h
        exact Except.noConfusion h
      · obtain ⟨w1, w2, b1, b2, b3, b4, hs⟩ := send_success_form a hc2 ht htf hf.ne'
        rw [hs] at h
        simp only [Except.ok.injEq, Prod.mk.injEq] at h
        obtain ⟨h1, h2⟩ := h
        subst h2
        have heleq : (a.advState w1 w2).elapsed = a.elapsed.add a.frame_time_in_msec := by
          simp [WidgetAnimation.advState]
        refine ⟨⟨by simpa [WidgetAnimation.advState] using b1,
            by simpa [WidgetAnimation.advState] using b2⟩,
          ⟨by simpa [WidgetAnimation.advState] using b3,
            by simpa [WidgetAnimation.advState] using b4⟩, ?_, ?_, ?_⟩
        · rw [heleq, frame_time_in_msec_eq a hf]
          exact Frac.le_add_nonneg a.elapsed ⟨1000, a.target_fps⟩ hden hf (by norm_num)
        · rw [heleq, frame_time_in_msec_eq a hf]
          simp only [Frac.add]
          exact mul_pos hden hf
        · intro f hff
          rw [← h1] at hff
          simp only [Option.some.injEq] at hff
          subst hff
          constructor
          · constructor
            · simpa [WidgetAnimation.frameOf, WidgetAnimation.advState] using b1
            · simpa [WidgetAnimation.frameOf, WidgetAnimation.advState] using b2
          · constructor
            · simpa [WidgetAnimation.frameOf, WidgetAnimation.advState] using b3
            · simpa [WidgetAnimation.frameOf, WidgetAnimation.advState] using b4

/-- C5 witness, at begin = (0, 10), final = (0, 0), targetFps = 10,
durationMs = 1000: one advance produces a frame, the new state and the
frame stay within the bounds, elapsed grows from 0 to 100. -/
theorem C5_bounds_witness :
    (0 : ℤ) < 10 ∧ 0 < (WidgetAnimation.init 0 10 0 0 10 1000).elapsed.den ∧
    (WidgetAnimation.init 0 10 0 0 10 1000).send =
      .ok (some (advanceTimes 1 (WidgetAnimation.init 0 10 0 0 10 1000)).frameOf,
        advanceTimes 1 (WidgetAnimation.init 0 10 0 0 10 1000)) ∧
    (min (0 : ℤ) 0 ≤ (advanceTimes 1 (WidgetAnimation.init 0 10 0 0 10 1000)).x ∧
      (advanceTimes 1 (WidgetAnimation.init 0 10 0 0 10 1000)).x ≤ max (0 : ℤ) 0) ∧
    (min (10 : ℤ) 0 ≤ (advanceTimes 1 (WidgetAnimation.init 0 10 0 0 10 1000)).y ∧
      (advanceTimes 1 (WidgetAnimation.init 0 10 0 0 10 1000)).y ≤ max (10 : ℤ) 0) ∧
    Frac.Le (WidgetAnimation.init 0 10 0 0 10 1000).elapsed
      (advanceTimes 1 (WidgetAnimation.init 0 10 0 0 10 1000)).elapsed := by
  have hsend : (WidgetAnimation.init 0 10 0 0 10 1000).send =
      .ok (some (advanceTimes 1 (WidgetAnimation.init 0 10 0 0 10 1000)).frameOf,
        advanceTimes 1 (WidgetAnimation.init 0 10 0 0 10 1000)) := by decide
  have h := C5_bounds_and_monotone_elapsed (WidgetAnimation.init 0 10 0 0 10 1000)
    (some (advanceTimes 1 (WidgetAnimation.init 0 10 0 0 10 1000)).frameOf)
    (advanceTimes 1 (WidgetAnimation.init 0 10 0 0 10 1000))
    (by decide) (by decide) (by decide) (by decide) (by decide) (by decide) hsend
  exact ⟨by decide, by decide, hsend, h.1, h.2.1, h.2.2.1⟩

/-- C10: whenever advance() signals Completed (StopIteration), both
guard branches of send return before any state mutation, so the state is
returned unchanged and every subsequent advance() call signals
Completed again.  This holds for every state, with no constraint on the
construction parameters. -/
theorem C10_completed_signal_stable (a a1 : WidgetAnimation)
    (h : a.send = .ok (none, a1)) :
    a1 = a ∧ a1.send = .ok (none, a1) := by
  by_cases hc : a.completed
  · have hs : a.send = .ok (none, a) := by simp [WidgetAnimation.send, hc]
    rw [hs] at h
    simp only [Except.ok.injEq, Prod.mk.injEq, true_and] at h
    subst h
    exact ⟨rfl, hs⟩
  · have hc2 : a.completed = false := by simpa using hc
    by_cases ht : Frac.Lt (Frac.ofInt (a.duration + 1000)) a.elapsed
    · have hs : a.send = .ok (none, a) := by
        unfold WidgetAnimation.send
        rw [hc2]
        simp only [Bool.false_eq_true, if_false]
        rw [if_pos ht]
      rw [hs] at h
      simp only [Except.ok.injEq, Prod.mk.injEq, true_and] at h
      subst h
      exact ⟨rfl, hs⟩
    · by_cases htf : a.total_frames.num = 0
      · have hs : a.send = .error .zeroDivisionError := by
          unfold WidgetAnimation.send
          rw [hc2]
          simp only [Bool.false_eq_true, if_false]
          rw [if_neg ht, if_pos htf]
        rw [hs] at h
        exact Except.noConfusion h
      · by_cases hfz : a.target_fps = 0
        · obtain ⟨w1, e1, -, -⟩ :=
            clip_value_isOk (a.x + a.x_frame_delta.1) (min a.begin_x a.final_x)
              (max a.begin_x a.final_x) (min_le_max)
          obtain ⟨w2, e2, -, -⟩ :=
            clip_value_isOk (a.y + a.y_frame_delta.1) (min a.begin_y a.final_y)
              (max a.begin_y a.final_y) (min_le_max)
          have hs : a.send = .error .zeroDivisionError := by
            unfold WidgetAnimation.send
            rw [hc2]
            simp only [Bool.false_eq_true, if_false]
            rw [if_neg ht, if_neg htf, e1, e2]
            simp [hfz]
          rw [hs] at h
          exact Except.noConfusion h
        · obtain ⟨w1, w2, -, -, -, -, hs⟩ := send_success_form a hc2 ht htf hfz
          rw [hs] at h
          simp at h

/-- C10 witness: a state constructed already completed (begin = final on
both axes) signals Completed and is returned unchanged, so the next call
signals Completed again. -/
theorem C10_completed_witness :
    (WidgetAnimation.init 3 4 3 4 10 500).send =
      .ok (none, WidgetAnimation.init 3 4 3 4 10 500) ∧
    (WidgetAnimation.init 3 4 3 4 10 500 = WidgetAnimation.init 3 4 3 4 10 500 ∧
      (WidgetAnimation.init 3 4 3 4 10 500).send =
        .ok (none, WidgetAnimation.init 3 4 3 4 10 500)) := by
  have hsend : (WidgetAnimation.init 3 4 3 4 10 500).send =
      .ok (none, WidgetAnimation.init 3 4 3 4 10 500) := by decide
  exact ⟨hsend, C10_completed_signal_stable _ _ hsend⟩

/-- C6: within one busy tick, a frame on which widget.place raises
TclError (PlacementError) is skipped and every other collected frame is
still applied in order; the tick completes and the next tick is
scheduled.  The applied frames are exactly the collected frames on which
place succeeds, in collection order. -/
theorem C6_placement_failure_isolated {a b : Type} (step : a → Option (b × a))
    (place : b → Bool) (s : AnimationManager a b)
    (hne : s.scheduled_animations ≠ []) (f : b) (hf : place f = false) :
    (AnimationManager.run_tick step place s).rescheduled = true ∧
    (AnimationManager.run_tick step place s).applied =
      applyFrames place (collectPhase step s).1 ∧
    (∀ l1 l2, (collectPhase step s).1 = l1 ++ f :: l2 →
      (AnimationManager.run_tick step place s).applied =
        applyFrames place l1 ++ applyFrames place l2) := by
  have hbusy : s.scheduled_animations.isEmpty = false := isEmpty_false_of_ne_nil hne
  have happ : (AnimationManager.run_tick step place s).applied =
      applyFrames place (collectPhase step s).1 := by
    simp only [AnimationManager.run_tick, hbusy, Bool.false_eq_true, if_false]
  refine ⟨?_, happ, ?_⟩
  · simp only [AnimationManager.run_tick, hbusy, Bool.false_eq_true, if_false]
  · intro l1 l2 hsplit
    rw [happ, hsplit, applyFrames_append]
    simp [applyFrames, hf]

/-- C6 witness: three animations each yield one frame; place fails on
the middle frame (value 6); the other two frames are applied in order
and the tick reschedules. -/
theorem C6_isolation_witness :
    (([5, 6, 7] : List ℕ) ≠ []) ∧
    (fun fr : ℕ => decide (fr ≠ 6)) 6 = false ∧
    (AnimationManager.run_tick (fun an : ℕ => some (an, an)) (fun fr => decide (fr ≠ 6))
      (⟨[5, 6, 7], [], false, []⟩ : AnimationManager ℕ ℕ)).applied = [5, 7] ∧
    (AnimationManager.run_tick (fun an : ℕ => some (an, an)) (fun fr => decide (fr ≠ 6))
      (⟨[5, 6, 7], [], false, []⟩ : AnimationManager ℕ ℕ)).rescheduled = true := by
  have h := C6_placement_failure_isolated (fun an : ℕ => some (an, an))
    (fun fr => decide (fr ≠ 6)) (⟨[5, 6, 7], [], false, []⟩ : AnimationManager ℕ ℕ)
    (by simp) 6 (by decide)
  refine ⟨by simp, by decide, ?_, h.1⟩
  have h3 := h.2.2 [5] [7] (by decide)
  rw [h3]
  decide

/-- C7: add_callback has set semantics (adding the same callback twice
equals adding it once); a tick that sees the scheduled queue empty while
the busy flag is set flips to idle and invokes every registered callback
exactly once (count 1 for each, given the duplicate-freeness that
add_callback maintains); the immediately following idle tick invokes
nothing. -/
theorem C7_drain_callbacks_once {a b : Type} (step : a → Option (b × a))
    (place : b → Bool) (s : AnimationManager a b) (c : ℕ)
    (hs : s.scheduled_animations = []) (hb : s.animation_in_progress = true)
    (hnd : s.callbacks.Nodup) :
    ((s.add_callback c).add_callback c = s.add_callback c) ∧
    (AnimationManager.run_tick step place s).invoked = s.callbacks ∧
    (∀ d, d ∈ s.callbacks →
      List.count d (AnimationManager.run_tick step place s).invoked = 1) ∧
    (AnimationManager.run_tick step place s).state.animation_in_progress = false ∧
    (AnimationManager.run_tick step place
      ((AnimationManager.run_tick step place s).state)).invoked = [] := by
  have hempty : s.scheduled_animations.isEmpty = true := by rw [hs]; rfl
  have hinv : (AnimationManager.run_tick step place s).invoked = s.callbacks := by
    simp [AnimationManager.run_tick, hempty, hb]
  refine ⟨?_, hinv, ?_, ?_, ?_⟩
  · by_cases hcm : c ∈ s.callbacks
    · simp [AnimationManager.add_callback, hcm]
    · simp [AnimationManager.add_callback, hcm]
  · intro d hd
    rw [hinv]
    exact List.count_eq_one_of_mem hnd hd
  · simp [AnimationManager.run_tick, hempty, hb]
  · simp [AnimationManager.run_tick, hempty, hb]

/-- C7 witness: two distinct callbacks registered, scheduler busy with
empty queues: the drain tick invokes both exactly once, flips to idle,
and the next tick invokes nothing; double registration collapses. -/
theorem C7_drain_witness :
    (((⟨[], [], true, [4, 9]⟩ : AnimationManager ℕ ℕ).add_callback 4).add_callback 4 =
      (⟨[], [], true, [4, 9]⟩ : AnimationManager ℕ ℕ).add_callback 4) ∧
    (AnimationManager.run_tick (fun _ : ℕ => (none : Option (ℕ × ℕ))) (fun _ => true)
      (⟨[], [], true, [4, 9]⟩ : AnimationManager ℕ ℕ)).invoked = [4, 9] ∧
    List.count 4 (AnimationManager.run_tick (fun _ : ℕ => (none : Option (ℕ × ℕ)))
      (fun _ => true) (⟨[], [], true, [4, 9]⟩ : AnimationManager ℕ ℕ)).invoked = 1 ∧
    (AnimationManager.run_tick (fun _ : ℕ => (none : Option (ℕ × ℕ))) (fun _ => true)
      (⟨[], [], true, [4, 9]⟩ : AnimationManager ℕ ℕ)).state.animation_in_progress
      = false ∧
    (AnimationManager.run_tick (fun _ : ℕ => (none : Option (ℕ × ℕ))) (fun _ => true)
      ((AnimationManager.run_tick (fun _ : ℕ => (none : Option (ℕ × ℕ))) (fun _ => true)
        (⟨[], [], true, [4, 9]⟩ : AnimationManager ℕ ℕ)).state)).invoked = [] := by
  have h := C7_drain_callbacks_once (fun _ : ℕ => (none : Option (ℕ × ℕ)))
    (fun _ => true) (⟨[], [], true, [4, 9]⟩ : AnimationManager ℕ ℕ) 4 rfl rfl (by decide)
  exact ⟨h.1, h.2.1, h.2.2.1 4 (by decide), h.2.2.2.1, h.2.2.2.2⟩

/-- C8: within one busy tick started with an empty running queue (the
between-tick invariant of the source), the collected frames are, in
order, one frame per still-running scheduled animation in FIFO enqueue
order; the unfinished animations are requeued in that same relative
order (the pop/appendleft transfer loop preserves order); and when no
placement fails, the applied frames are exactly the collected frames in
that order. -/
theorem C8_fifo_ordering {a b : Type} (step : a → Option (b × a)) (place : b → Bool)
    (s : AnimationManager a b) (hne : s.scheduled_animations ≠ [])
    (hrun : s.running_animations = []) :
    (collectPhase step s).1 =
      s.scheduled_animations.filterMap (fun an => (step an).map Prod.fst) ∧
    (AnimationManager.run_tick step place s).state.scheduled_animations =
      s.scheduled_animations.filterMap (fun an => (step an).map Prod.snd) ∧
    (AnimationManager.run_tick step place s).applied =
      applyFrames place
        (s.scheduled_animations.filterMap (fun an => (step an).map Prod.fst)) ∧
    ((∀ fr, place fr = true) →
      (AnimationManager.run_tick step place s).applied =
        s.scheduled_animations.filterMap (fun an => (step an).map Prod.fst)) := by
  have hbusy : s.scheduled_animations.isEmpty = false := isEmpty_false_of_ne_nil hne
  have hcol : collectPhase step s =
      (s.scheduled_animations.filterMap (fun an => (step an).map Prod.fst),
        s.scheduled_animations.filterMap (fun an => (step an).map Prod.snd)) := by
    unfold collectPhase
    rw [runCollect_eq, hrun]
    simp
  have happ : (AnimationManager.run_tick step place s).applied =
      applyFrames place
        (s.scheduled_animations.filterMap (fun an => (step an).map Prod.fst)) := by
    simp only [AnimationManager.run_tick, hbusy, Bool.false_eq_true, if_false]
    rw [hcol]
  refine ⟨by rw [hcol], ?_, happ, ?_⟩
  · simp only [AnimationManager.run_tick, hbusy, Bool.false_eq_true, if_false]
    rw [hcol]
    simp [transferBack_eq]
  · intro hp
    rw [happ, applyFrames_eq_filter]
    exact List.filter_eq_self.mpr (fun x _ => hp x)

/-- C8 witness: three animations, the middle one finishes
(StopIteration): the two collected frames are applied in enqueue order
and the two unfinished animations are requeued in that order. -/
theorem C8_fifo_witness :
    (([1, 2, 3] : List ℕ) ≠ []) ∧
    (collectPhase (fun n : ℕ => if n = 2 then none else some (n * 10, n + 1))
      (⟨[1, 2, 3], [], false, []⟩ : AnimationManager ℕ ℕ)).1 = [10, 30] ∧
    (AnimationManager.run_tick (fun n : ℕ => if n = 2 then none else some (n * 10, n + 1))
      (fun _ => true)
      (⟨[1, 2, 3], [], false, []⟩ : AnimationManager ℕ ℕ)).state.scheduled_animations
      = [2, 4] ∧
    (AnimationManager.run_tick (fun n : ℕ => if n = 2 then none else some (n * 10, n + 1))
      (fun _ => true)
      (⟨[1, 2, 3], [], false, []⟩ : AnimationManager ℕ ℕ)).applied = [10, 30] := by
  have h := C8_fifo_ordering (fun n : ℕ => if n = 2 then none else some (n * 10, n + 1))
    (fun _ => true) (⟨[1, 2, 3], [], false, []⟩ : AnimationManager ℕ ℕ) (by simp) rfl
  refine ⟨by simp, ?_, ?_, ?_⟩
  · rw [h.1]
    decide
  · rw [h.2.1]
    decide
  · rw [h.2.2.2 (fun fr => rfl)]
    decide
